import Mathlib

/-
Verification of the figma-beacon terminal tool (Go sources) against its
natural-language specification.

The development shallow-embeds the relevant parts of the Go program:

* the calendar arithmetic of the standard library functions used by
  resolveTimeWindow (time.Date with its field normalization, AddDate,
  Add(-time.Second)), modelled as integer arithmetic on an absolute
  second count whose zero is the Go zero time 0001-01-01T00:00:00;
* the report engine (generateReport, formatReportMarkdown), with the
  network modelled as an explicit Gateway record of fallible lookups and
  the Go map iteration of formatReportMarkdown as an explicit key order
  parameter (a permutation of the distinct project names);
* the Bubble Tea Update function for the screens the claims exercise
  (report generating/view, profile wizard, manage profiles), with the
  profile Store modelled as an ordered list of records (directory order)
  and a write-failure flag for the environment.

Machine integers are modelled as unbounded Int/Nat: none of the verified
code paths can overflow 64-bit quantities on the inputs considered.
-/

namespace FigmaBeacon

/-! ## Go calendar arithmetic

Model of the parts of the Go time package used by the program, for a
fixed location (no DST; the program formats and compares wall-clock
instants in a single location). An absolute instant is an Int count of
seconds; second 0 is the Go zero time, January 1 of year 1, 00:00:00. -/

/-- Go isLeap: year divisible by 4 and (not by 100 or by 400). -/
def isLeap (y : Int) : Bool :=
  y % 4 == 0 && (y % 100 != 0 || y % 400 == 0)

/-- Cumulative days before month m (1 = January) in a non-leap year;
the Go daysBefore array indexed at month-1. -/
def daysBefore (m : Int) : Int :=
  if m ≤ 1 then 0
  else if m = 2 then 31
  else if m = 3 then 59
  else if m = 4 then 90
  else if m = 5 then 120
  else if m = 6 then 151
  else if m = 7 then 181
  else if m = 8 then 212
  else if m = 9 then 243
  else if m = 10 then 273
  else if m = 11 then 304
  else 334

/-- Days from 0001-01-01 to the first day of year y (Gregorian),
as computed by the Go time package day counting. -/
def daysToYear (y : Int) : Int :=
  365 * (y - 1) + (y - 1).fdiv 4 - (y - 1).fdiv 100 + (y - 1).fdiv 400

/-- Day number of the civil date (y, m, d), with the month normalized
into [1,12] by floor division exactly as the Go norm function does, and
the day taken as a plain offset (time.Date normalizes an out-of-range
day by adding day-1 days, which is what the formula does). -/
def daysFromCivil (y m d : Int) : Int :=
  let yn := y + (m - 1).fdiv 12
  let mn := (m - 1).fmod 12 + 1
  daysToYear yn + daysBefore mn + (if isLeap yn && decide (3 ≤ mn) then 1 else 0) + (d - 1)

/-- Absolute second count of time.Date(y, m, d, h, mi, s, 0, loc):
clock fields are plain offsets, matching the Go normalization carries. -/
def goDate (y m d h mi s : Int) : Int :=
  86400 * daysFromCivil y m d + 3600 * h + 60 * mi + s

/-- A wall-clock instant as the Go accessors Year(), Month(), Day(),
Hour(), Minute(), Second() decompose it. -/
structure CivilTime where
  y : Int
  m : Int
  d : Int
  h : Int
  mi : Int
  s : Int
deriving DecidableEq

/-- The field ranges Go guarantees for the decomposition of any instant. -/
def CivilTime.Wf (t : CivilTime) : Prop :=
  1 ≤ t.m ∧ t.m ≤ 12 ∧ 1 ≤ t.d ∧ 0 ≤ t.h ∧ 0 ≤ t.mi ∧ 0 ≤ t.s

instance (t : CivilTime) : Decidable t.Wf := by
  unfold CivilTime.Wf; infer_instance

/-- Absolute second count of an instant given by its civil fields. -/
def CivilTime.abs (t : CivilTime) : Int :=
  goDate t.y t.m t.d t.h t.mi t.s

/-- The five time modes of the report configuration. -/
inductive TimeModeT
  | lastWeek
  | lastMonth
  | thisMonthToDate
  | last4Weeks
  | last30Days
deriving DecidableEq

/-- TimeWindow with Start and End instants, as absolute second counts. -/
structure TimeWindow where
  Start : Int
  End : Int
deriving DecidableEq

/-- resolveTimeWindow: the five cases of the Go switch.
lastWeek, last4Weeks, last30Days use now.AddDate(0, 0, -k), which
re-dates now with the day field decreased by k; lastMonth builds the
first instant of the current month, rolls it back one month with
AddDate(0, -1, 0), and subtracts one second from the month start;
thisMonthToDate starts at the first instant of the current month. -/
def resolveTimeWindow (mode : TimeModeT) (now : CivilTime) : TimeWindow :=
  match mode with
  | .lastWeek => ⟨goDate now.y now.m (now.d - 7) now.h now.mi now.s, now.abs⟩
  | .lastMonth =>
      let firstOfThisMonth := goDate now.y now.m 1 0 0 0
      let firstOfLastMonth := goDate now.y (now.m - 1) 1 0 0 0
      ⟨firstOfLastMonth, firstOfThisMonth - 1⟩
  | .thisMonthToDate => ⟨goDate now.y now.m 1 0 0 0, now.abs⟩
  | .last4Weeks => ⟨goDate now.y now.m (now.d - 28) now.h now.mi now.s, now.abs⟩
  | .last30Days => ⟨goDate now.y now.m (now.d - 30) now.h now.mi now.s, now.abs⟩

/-! ## Report engine

generateReport is embedded with the network as an explicit Gateway
record: a none result models any of the failure paths the Go code
handles with continue (request construction error, transport error,
non-200 status, JSON parse error). Timestamps are absolute second
counts; the Go zero time is the count 0, so the IsZero test of the
code is an equality with 0. -/

/-- RemoteProject entry of a profile (id and name pair). -/
structure ProfileProject where
  id : String
  name : String
deriving DecidableEq

/-- Profile record as persisted by the Store. -/
structure Profile where
  name : String
  teamID : String
  selectedProjects : List ProfileProject
  createdAt : Int
  isDefault : Bool
deriving DecidableEq

/-- Entry of the project file listing endpoint (key and name). -/
structure FileEntry where
  key : String
  name : String
deriving DecidableEq

/-- Parsed body of the file metadata endpoint. -/
structure FileMeta where
  name : String
  lastModified : Int
deriving DecidableEq

/-- The Gateway as the report engine consumes it: per project id the
file listing, per file key the metadata and the version history
(created_at instants, newest first). none = the fetch failed. -/
structure Gateway where
  projectFiles : String → Option (List FileEntry)
  fileMeta : String → Option FileMeta
  fileVersions : String → Option (List Int)

/-- FileActivity as built by generateReport (the two fetched-but-unused
list fields Versions and Comments are always empty in the code and are
dropped). -/
structure FileActivity where
  fileKey : String
  fileName : String
  projectName : String
  lastModified : Int
  createdAt : Int
  myChanges : Bool
  createdInWindow : Bool
deriving DecidableEq

/-- ActivityReport as built by generateReport (GeneratedAt, a wall
clock read, is dropped). -/
structure ActivityReport where
  window : TimeWindow
  userID : String
  userHandle : String
  files : List FileActivity
  totalFiles : Nat
  totalChanges : Nat
deriving DecidableEq

/-- Creation instant variable of the Go code: the last element of the
newest-first version list (the earliest version), zero when the list is
empty. -/
def createdAtOf (versions : List Int) : Int :=
  (versions.getLast?).getD 0

/-- The createdInWindow test of the code: createdAt not the zero time,
strictly after Start and strictly before End. -/
def createdInWindowOf (w : TimeWindow) (versions : List Int) : Bool :=
  decide (createdAtOf versions ≠ 0 ∧ w.Start < createdAtOf versions ∧ createdAtOf versions < w.End)

/-- The myChanges test of the code: lastModified strictly after Start
and strictly before End. -/
def myChangesOf (w : TimeWindow) (lastModified : Int) : Bool :=
  decide (w.Start < lastModified ∧ lastModified < w.End)

/-- Per-file stage of generateReport: fetch metadata (failure skips the
file), fetch the version history (failure skips the file), classify,
and keep the file only when one of the two flags is set. -/
def processFile (w : TimeWindow) (projectName : String) (g : Gateway)
    (fe : FileEntry) : Option FileActivity :=
  match g.fileMeta fe.key with
  | none => none
  | some fd =>
    match g.fileVersions fe.key with
    | none => none
    | some versions =>
      let createdAt := createdAtOf versions
      let createdInWindow := createdInWindowOf w versions
      let myChanges := myChangesOf w fd.lastModified
      if myChanges || createdInWindow then
        some ⟨fe.key, fd.name, projectName, fd.lastModified, createdAt, myChanges, createdInWindow⟩
      else
        none

/-- Per-project stage of generateReport: a failed file listing skips
the whole project (continue), otherwise every listed file is processed. -/
def projectActivities (w : TimeWindow) (g : Gateway) (proj : ProfileProject) :
    List FileActivity :=
  match g.projectFiles proj.id with
  | none => []
  | some fs => fs.filterMap (processFile w proj.name g)

/-- The message generateReport returns into the event queue. -/
inductive ReportMsg
  | generated (report : ActivityReport) (content : String)
  | err (msg : String)
deriving DecidableEq

/-- Data core of generateReport: the missing-profile check short
circuits with the error message of reportErrMsg; otherwise every
selected project contributes its processed files and the totals are
computed over the retained list (the loop counting MyChanges). The
window argument is the one generateReport resolves from the config at
entry; the rendered markdown of the delivered message is added by the
generateReport wrapper below. -/
def generateReportCore (g : Gateway) (userID userHandle : String)
    (w : TimeWindow) (profile : Option Profile) : Except String ActivityReport :=
  match profile with
  | none => .error "No profile selected. Please select a profile or create one in Manage Profiles."
  | some p =>
    let files := p.selectedProjects.flatMap (projectActivities w g)
    .ok ⟨w, userID, userHandle, files, files.length, files.countP (·.myChanges)⟩

/-- A Gateway on which every request fails: the model of an entirely
unreachable network. -/
def deadGateway : Gateway :=
  ⟨fun _ => none, fun _ => none, fun _ => none⟩

/-! ## Report formatting

formatReportMarkdown groups the retained files with a Go map and then
ranges over that map; Go map iteration order is unspecified and
deliberately randomized between runs, so the section order is embedded
as an explicit parameter: any permutation of the distinct project names
is a possible iteration order, and within one section the files keep
their encounter order (append). -/

/-- Civil date (year, month, day) of a day count, inverse of
daysFromCivil on valid dates (standard Gregorian algorithm); used only
to render the Go date format string 2006-01-02. -/
def civilFromDays (z0 : Int) : Int × Int × Int :=
  let z := z0 + 306
  let era := z.fdiv 146097
  let doe := z - era * 146097
  let yoe := (doe - doe.fdiv 1460 + doe.fdiv 36524 - doe.fdiv 146096).fdiv 365
  let y := yoe + era * 400
  let doy := doe - (365 * yoe + yoe.fdiv 4 - yoe.fdiv 100)
  let mp := (5 * doy + 2).fdiv 153
  let d := doy - (153 * mp + 2).fdiv 5 + 1
  let m := mp + (if mp < 10 then 3 else -9)
  (y + (if m ≤ 2 then 1 else 0), m, d)

/-- Zero padding to two digits, as the Go layout 01 and 02 produce. -/
def pad2 (n : Int) : String :=
  if 0 ≤ n ∧ n < 10 then "0" ++ toString n else toString n

/-- Zero padding to four digits, as the Go layout 2006 produces. -/
def pad4 (n : Int) : String :=
  if 0 ≤ n ∧ n < 10 then "000" ++ toString n
  else if 0 ≤ n ∧ n < 100 then "00" ++ toString n
  else if 0 ≤ n ∧ n < 1000 then "0" ++ toString n
  else toString n

/-- Format an absolute instant with the Go layout 2006-01-02. -/
def fmtDate (t : Int) : String :=
  match civilFromDays (t.fdiv 86400) with
  | (y, m, d) => pad4 y ++ "-" ++ pad2 m ++ "-" ++ pad2 d

/-- Header part of formatReportMarkdown: title, window dates, user. -/
def reportHeader (r : ActivityReport) : String :=
  "# Status Report\n" ++
  "## From " ++ fmtDate r.window.Start ++ " to " ++ fmtDate r.window.End ++ "\n" ++
  (if r.userHandle ≠ "" then "User: " ++ r.userHandle ++ "\n\n" else "\n")

/-- Status annotation of a file line. -/
def statusOf (f : FileActivity) : String :=
  if f.createdInWindow then "Created" else "Modified"

/-- One rendered file line with the deep link built from the file key. -/
def renderFileLine (f : FileActivity) : String :=
  "- [" ++ f.fileName ++ "](https://www.figma.com/file/" ++ f.fileKey ++ ") (" ++
    statusOf f ++ ")\n"

/-- Grouping key of a file: its project name, with the empty name
replaced by Unknown Project. -/
def projectKeyOf (f : FileActivity) : String :=
  if f.projectName = "" then "Unknown Project" else f.projectName

/-- Distinct grouping keys in order of first occurrence: the insertion
order of the Go map. -/
def distinctProjects (files : List FileActivity) : List String :=
  files.foldl (fun acc f => if projectKeyOf f ∈ acc then acc else acc ++ [projectKeyOf f]) []

/-- One rendered project section: header plus the file lines of the
files grouped under that key, in encounter order. -/
def renderSection (files : List FileActivity) (p : String) : String :=
  "\n### " ++ p ++ "\n\n" ++
    String.join ((files.filter (fun f => projectKeyOf f == p)).map renderFileLine)

/-- formatReportMarkdown, with the Go map iteration order of the
grouped keys passed explicitly as order. -/
def formatReportMarkdown (order : List String) (r : ActivityReport) : String :=
  reportHeader r ++
    (if r.files.isEmpty then "No file activity found in the selected time period.\n"
     else String.join (order.map (renderSection r.files)))

/-- Two-project report used to exhibit the order dependence of
formatReportMarkdown. -/
def twoProjectReport : ActivityReport :=
  ⟨⟨0, 100⟩, "u", "handle",
    [⟨"kA", "FileA", "Alpha", 5, 3, true, true⟩,
     ⟨"kB", "FileB", "Beta", 6, 4, true, false⟩], 2, 2⟩

/-! ## Session controller

Embedding of the Update branches the claims exercise: the
reportGeneratedMsg, reportErrMsg and tickMsg handlers, and the key
handlers of the report generating/view screens, the profile wizard
screen and the manage profiles screen. Key handlers of the remaining
screens are not embedded; the dispatcher leaves the state unchanged
there. The profile Store is an explicit ordered list of records
(directory order of the profile files) together with one environment
flag that makes profile writes fail; a none from a save is the error
return of os.WriteFile. -/

/-- The screens of the session state machine. -/
inductive ScreenState
  | mainMenuScreen
  | setupScreen
  | manageProfilesScreen
  | profileWizardScreen
  | profilePreviewScreen
  | reportConfigScreen
  | reportGeneratingScreen
  | reportViewScreen
deriving DecidableEq

/-- The wizard steps. -/
inductive WizardStep
  | wizardTeamID
  | wizardProjects
  | wizardSaveName
deriving DecidableEq

/-- The loading sub-states of the wizard. -/
inductive LoadingState
  | notLoading
  | loadingProjects
deriving DecidableEq

/-- Remote project mirror held in wizard state. -/
structure FigmaProject where
  id : String
  name : String
deriving DecidableEq

/-- The profile Store: records in directory order plus the
environment flag for failing writes. -/
structure Store where
  profiles : List Profile
  saveFails : Bool
deriving DecidableEq

/-- saveProfile: overwrite the record of the same name or create a new
file; none when the write fails. -/
def storeSaveProfile (p : Profile) (s : Store) : Option Store :=
  if s.saveFails then none
  else if s.profiles.any (·.name == p.name) then
    some { s with profiles := s.profiles.map (fun q => if q.name == p.name then p else q) }
  else
    some { s with profiles := s.profiles ++ [p] }

/-- deleteProfile: os.Remove of the record file; the Bool is the
success of the removal (the file existed). -/
def storeDeleteProfile (name : String) (s : Store) : Store × Bool :=
  ({ s with profiles := s.profiles.filter (fun p => p.name ≠ name) },
    s.profiles.any (·.name == name))

/-- setDefaultProfile: clear every default flag then set the one of the
named record; when writes fail the first clearing write errors out and
the records on disk are unchanged. -/
def storeSetDefaultProfile (name : String) (s : Store) : Store :=
  if s.saveFails then s
  else { s with profiles := s.profiles.map (fun p => { p with isDefault := p.name == name }) }

/-- The model fields read or written by the embedded Update branches. -/
structure SessionModel where
  currentScreen : ScreenState
  selectedIndex : Int
  profileStatus : String
  figmaToken : String
  userID : String
  teamID : String
  userHandle : String
  textInputValue : String
  editingIndex : Int
  profiles : List Profile
  activeProfile : Option Profile
  previewProfile : Option Profile
  wizardStep : WizardStep
  wizardTeamID : String
  wizardProjects : List FigmaProject
  wizardSelectedProj : List String
  wizardProfileName : String
  wizardEditMode : Bool
  loadingState : LoadingState
  loadingError : String
  loadingProgress : String
  listOffset : Int
  listCursor : Int
  showDeleteConfirm : Bool
  deleteProfileName : String
  generatingReport : Bool
  reportingProfile : Option Profile
  activityReport : Option ActivityReport
  reportError : String
  reportContent : String
  exportSuccess : String
  exportError : String
  spinnerFrame : Nat
  spinnerChars : List String
deriving DecidableEq

/-- The commands the embedded branches can dispatch. -/
inductive Cmd
  | quit
  | fetchProjects (token teamID : String)
  | exportReportCmd (content profileName : String)
  | tick
deriving DecidableEq

/-- The messages the embedded branches consume. -/
inductive Msg
  | key (k : String)
  | reportGenerated (report : ActivityReport) (content : String)
  | reportErr (e : String)
  | tickM
deriving DecidableEq

/-- Default profile value standing for the Go zero value where an index
access is guarded by the surrounding condition. -/
def emptyProfile : Profile := ⟨"", "", [], 0, false⟩

/-- reportGeneratedMsg handler: unconditionally leaves the generating
state, stores the report, switches to the report view screen, restores
the profile status and dispatches the auto-export command. -/
def handleReportGenerated (m : SessionModel) (report : ActivityReport) (content : String) :
    SessionModel × Option Cmd :=
  let m1 := { m with generatingReport := false, activityReport := some report,
                     reportContent := content, reportError := "",
                     currentScreen := ScreenState.reportViewScreen }
  let m2 := match m1.activeProfile with
    | some p => { m1 with profileStatus := "⬥ Profile: " ++ p.name }
    | none => m1
  let m3 := { m2 with reportingProfile := none }
  let profileName := match m3.activeProfile with
    | some p => p.name
    | none => "default"
  (m3, some (Cmd.exportReportCmd content profileName))

/-- reportErrMsg handler. -/
def handleReportErr (m : SessionModel) (e : String) : SessionModel × Option Cmd :=
  let m1 := { m with generatingReport := false, reportError := e,
                     currentScreen := ScreenState.reportViewScreen }
  let m2 := match m1.activeProfile with
    | some p => { m1 with profileStatus := "⬥ Profile: " ++ p.name }
    | none => m1
  ({ m2 with reportingProfile := none }, none)

/-- tickMsg handler: only acts while the still-generating flag is set. -/
def handleTick (m : SessionModel) : SessionModel × Option Cmd :=
  if m.generatingReport then
    let frame := (m.spinnerFrame + 1) % m.spinnerChars.length
    let m1 := { m with spinnerFrame := frame }
    let m2 := match m1.reportingProfile with
      | some p => { m1 with profileStatus := (m1.spinnerChars.getD frame "") ++ " Profile: " ++ p.name }
      | none => m1
    (m2, some Cmd.tick)
  else (m, none)

/-- Key handler shared by the report generating and report view screens. -/
def handleReportScreensKey (m : SessionModel) (k : String) : SessionModel × Option Cmd :=
  match k with
  | "ctrl+c" => (m, some Cmd.quit)
  | "esc" =>
    let m1 := { m with currentScreen := ScreenState.mainMenuScreen, selectedIndex := 1,
                       generatingReport := false, reportContent := "", reportError := "",
                       exportSuccess := "", exportError := "" }
    let m2 := match m1.activeProfile with
      | some p => { m1 with profileStatus := "⬥ Profile: " ++ p.name }
      | none => m1
    ({ m2 with reportingProfile := none }, none)
  | _ => (m, none)

/-- The confirm branch of the manage profiles key handler: y/Y deletes
and, when the deleted record was the active profile, promotes the first
remaining record to default and active; n/N/esc clears the pending
dialog; every other key leaves the state unchanged. -/
def handleDeleteConfirmKey (m : SessionModel) (s : Store) (k : String) :
    SessionModel × Store × Option Cmd :=
  match k with
  | "y" | "Y" =>
    let del := storeDeleteProfile m.deleteProfileName s
    let s1 := del.1
    let ms2 :=
      if del.2 then
        let m1 := { m with profiles := s1.profiles }
        let ms1 :=
          if (match m1.activeProfile with
              | some p => p.name == m.deleteProfileName
              | none => false) then
            let m2 := { m1 with activeProfile := none,
                                profileStatus := "⬥ No profile selected" }
            match m2.profiles with
            | [] => (m2, s1)
            | p0 :: _ =>
              let s2 := storeSetDefaultProfile p0.name s1
              let m3 := { m2 with profiles := s2.profiles }
              let m4 := match s2.profiles.find? (·.isDefault) with
                | some pd => { m3 with activeProfile := some pd,
                                       profileStatus := "⬥ Profile: " ++ pd.name }
                | none => m3
              (m4, s2)
          else (m1, s1)
        let m5 := ms1.1
        let m6 := if m5.listCursor > (m5.profiles.length : Int)
                  then { m5 with listCursor := (m5.profiles.length : Int) } else m5
        (m6, ms1.2)
      else (m, s1)
    ({ ms2.1 with showDeleteConfirm := false, deleteProfileName := "" }, ms2.2, none)
  | "n" | "N" | "esc" =>
    ({ m with showDeleteConfirm := false, deleteProfileName := "" }, s, none)
  | _ => (m, s, none)

/-- Key handler of the manage profiles screen. -/
def handleManageProfilesKey (m : SessionModel) (s : Store) (k : String) :
    SessionModel × Store × Option Cmd :=
  if m.showDeleteConfirm then
    handleDeleteConfirmKey m s k
  else
    match k with
    | "ctrl+c" => (m, s, some Cmd.quit)
    | "esc" =>
      ({ m with currentScreen := ScreenState.mainMenuScreen, selectedIndex := 1 }, s, none)
    | "up" | "k" =>
      (if m.listCursor > 0 then { m with listCursor := m.listCursor - 1 } else m, s, none)
    | "down" | "j" =>
      (if m.listCursor < 1 + (m.profiles.length : Int)
       then { m with listCursor := m.listCursor + 1 } else m, s, none)
    | "backspace" =>
      (if 0 < m.listCursor ∧ m.listCursor ≤ (m.profiles.length : Int) then
         { m with
             deleteProfileName := (m.profiles.getD (m.listCursor - 1).toNat emptyProfile).name,
             showDeleteConfirm := true }
       else m, s, none)
    | "d" | "D" =>
      if 0 < m.listCursor ∧ m.listCursor ≤ (m.profiles.length : Int) then
        let sel := m.profiles.getD (m.listCursor - 1).toNat emptyProfile
        let s2 := storeSetDefaultProfile sel.name s
        let m1 := { m with profiles := s2.profiles }
        let m2 := match s2.profiles.find? (·.isDefault) with
          | some pd => { m1 with activeProfile := some pd,
                                 profileStatus := "⬥ Profile: " ++ pd.name }
          | none => m1
        (m2, s2, none)
      else (m, s, none)
    | "enter" =>
      if m.listCursor = 0 then
        ({ m with currentScreen := ScreenState.profileWizardScreen,
                  wizardStep := WizardStep.wizardTeamID,
                  wizardTeamID := m.teamID,
                  wizardSelectedProj := [],
                  wizardProfileName := "",
                  wizardEditMode := false,
                  loadingState := LoadingState.notLoading,
                  loadingError := "",
                  loadingProgress := "",
                  listCursor := 0 }, s, none)
      else if m.listCursor = 1 + (m.profiles.length : Int) then
        ({ m with currentScreen := ScreenState.mainMenuScreen, selectedIndex := 1 }, s, none)
      else if 0 < m.listCursor ∧ m.listCursor ≤ (m.profiles.length : Int) then
        ({ m with previewProfile := some (m.profiles.getD (m.listCursor - 1).toNat emptyProfile),
                  currentScreen := ScreenState.profilePreviewScreen }, s, none)
      else (m, s, none)
    | _ => (m, s, none)

/-- The profile record the wizard commit builds from the current wizard
state: the toggled projects of the fetched list, in list order. -/
def wizardSelectedProjects (m : SessionModel) : List ProfileProject :=
  (m.wizardProjects.filter (fun pr => m.wizardSelectedProj.contains pr.id)).map
    (fun pr => ⟨pr.id, pr.name⟩)

/-- Commit branch of the wizard (enter while editing the profile name):
validates the name, in edit mode under a changed name deletes the old
record first, then writes the new record; a failed write leaves an
error on screen. now is the wall clock instant stamped on a newly
created profile. -/
def wizardCommit (m : SessionModel) (s : Store) (now : Int) :
    SessionModel × Store × Option Cmd :=
  let profileName := m.textInputValue
  let m1 := { m with textInputValue := "", editingIndex := -1 }
  if profileName = "" then
    ({ m1 with loadingError := "Profile name is required" }, s, none)
  else
    let previewName := (m1.previewProfile.map (·.name)).getD ""
    -- where the Go code dereferences m.previewProfile.Name with edit
    -- mode set, the preview profile is always present (edit mode is
    -- only entered from the preview screen); the getD zero value never
    -- materializes on a reachable state
    if (¬m1.wizardEditMode ∨ (m1.wizardEditMode ∧ profileName ≠ previewName)) ∧
        m1.profiles.any (·.name == profileName) then
      ({ m1 with loadingError := "Profile name already exists" }, s, none)
    else
      let selectedProjects := wizardSelectedProjects m1
      let isRenaming := m1.wizardEditMode ∧ m1.previewProfile.isSome ∧ profileName ≠ previewName
      let s1 := if isRenaming then (storeDeleteProfile previewName s).1 else s
      let profile :=
        if m1.wizardEditMode ∧ m1.previewProfile.isSome then
          { name := profileName, teamID := m1.wizardTeamID,
            selectedProjects := selectedProjects,
            createdAt := ((m1.previewProfile.map (·.createdAt)).getD 0),
            isDefault := ((m1.previewProfile.map (·.isDefault)).getD false) }
        else
          { name := profileName, teamID := m1.wizardTeamID,
            selectedProjects := selectedProjects,
            createdAt := now,
            isDefault := m1.profiles.isEmpty }
      match storeSaveProfile profile s1 with
      | none =>
        ({ m1 with loadingError := "Failed to save profile: write error" }, s1, none)
      | some s2 =>
        let m2 := { m1 with profiles := s2.profiles }
        let m3 :=
          if m2.wizardEditMode ∧ m2.activeProfile.isSome ∧ m2.previewProfile.isSome then
            if ((m2.activeProfile.map (·.name)).getD "") = previewName then
              { m2 with activeProfile := some profile,
                        profileStatus := "⬥ Profile: " ++ profile.name }
            else m2
          else if profile.isDefault then
            { m2 with activeProfile := some profile,
                      profileStatus := "⬥ Profile: " ++ profile.name }
          else m2
        ({ m3 with wizardEditMode := false, previewProfile := none,
                   currentScreen := ScreenState.manageProfilesScreen,
                   listCursor := 0 }, s2, none)

/-- Key handler of the wizard screen. The default branches that feed
the text input component are embedded as updating the buffered value
with an abstract edit (identity here: the claims never exercise them). -/
def handleWizardKey (m : SessionModel) (s : Store) (now : Int) (k : String) :
    SessionModel × Store × Option Cmd :=
  if m.wizardStep = WizardStep.wizardSaveName ∧ m.editingIndex = 0 then
    match k with
    | "ctrl+c" => (m, s, some Cmd.quit)
    | "esc" => ({ m with textInputValue := "", editingIndex := -1 }, s, none)
    | "enter" => wizardCommit m s now
    | _ => (m, s, none)
  else if m.wizardStep = WizardStep.wizardTeamID ∧ m.editingIndex = 0 then
    match k with
    | "ctrl+c" => (m, s, some Cmd.quit)
    | "esc" => ({ m with textInputValue := "", editingIndex := -1 }, s, none)
    | "enter" =>
      let m1 := { m with wizardTeamID := m.textInputValue,
                         textInputValue := "", editingIndex := -1 }
      if m1.wizardTeamID = "" then
        ({ m1 with loadingError := "Team ID is required" }, s, none)
      else
        ({ m1 with wizardStep := WizardStep.wizardProjects,
                   loadingState := LoadingState.loadingProjects,
                   loadingError := "", listCursor := 0, listOffset := 0 }, s,
          some (Cmd.fetchProjects m1.figmaToken m1.wizardTeamID))
    | _ => (m, s, none)
  else
    match k with
    | "ctrl+c" => (m, s, some Cmd.quit)
    | "esc" =>
      ({ m with currentScreen := ScreenState.manageProfilesScreen, listCursor := 0,
                wizardEditMode := false, previewProfile := none }, s, none)
    | "up" | "k" =>
      (if m.wizardStep = WizardStep.wizardProjects ∧ m.wizardProjects ≠ [] ∧ m.listCursor > 0 then
         let m1 := { m with listCursor := m.listCursor - 1 }
         if m1.listCursor < m1.listOffset then { m1 with listOffset := m1.listCursor } else m1
       else m, s, none)
    | "down" | "j" =>
      (if m.wizardStep = WizardStep.wizardProjects ∧ m.wizardProjects ≠ [] ∧
          m.listCursor < (m.wizardProjects.length : Int) - 1 then
         let m1 := { m with listCursor := m.listCursor + 1 }
         if m1.listCursor ≥ m1.listOffset + 10
         then { m1 with listOffset := m1.listCursor - 10 + 1 } else m1
       else m, s, none)
    | " " =>
      (if m.wizardStep = WizardStep.wizardProjects ∧ m.wizardProjects ≠ [] ∧
          m.listCursor < (m.wizardProjects.length : Int) then
         let project := m.wizardProjects.getD m.listCursor.toNat ⟨"", ""⟩
         if m.wizardSelectedProj.contains project.id then
           { m with wizardSelectedProj := m.wizardSelectedProj.filter (· ≠ project.id) }
         else
           { m with wizardSelectedProj := m.wizardSelectedProj ++ [project.id] }
       else m, s, none)
    | "enter" =>
      if m.wizardStep = WizardStep.wizardTeamID ∧ m.editingIndex = -1 then
        ({ m with editingIndex := 0, textInputValue := m.wizardTeamID }, s, none)
      else if m.wizardStep = WizardStep.wizardProjects then
        if m.wizardSelectedProj.length = 0 then
          ({ m with loadingError := "Please select at least one project" }, s, none)
        else
          ({ m with wizardStep := WizardStep.wizardSaveName,
                    loadingError := "", editingIndex := -1 }, s, none)
      else if m.wizardStep = WizardStep.wizardSaveName ∧ m.editingIndex = -1 then
        ({ m with editingIndex := 0, textInputValue := m.wizardProfileName }, s, none)
      else (m, s, none)
    | _ => (m, s, none)

/-- The embedded Update dispatcher: message handlers first (as the Go
type switch does), then the key routing of the embedded screens; key
input on a screen that is not embedded leaves the state unchanged. -/
def update (m : SessionModel) (s : Store) (now : Int) (msg : Msg) :
    SessionModel × Store × Option Cmd :=
  match msg with
  | .reportGenerated r c =>
    let rc := handleReportGenerated m r c
    (rc.1, s, rc.2)
  | .reportErr e =>
    let rc := handleReportErr m e
    (rc.1, s, rc.2)
  | .tickM =>
    let rc := handleTick m
    (rc.1, s, rc.2)
  | .key k =>
    if m.currentScreen = ScreenState.reportGeneratingScreen ∨
        m.currentScreen = ScreenState.reportViewScreen then
      let rc := handleReportScreensKey m k
      (rc.1, s, rc.2)
    else if m.currentScreen = ScreenState.profileWizardScreen then
      handleWizardKey m s now k
    else if m.currentScreen = ScreenState.manageProfilesScreen then
      handleManageProfilesKey m s k
    else (m, s, none)

/-- A session model with the zero values of the Go model struct (the
fields the initial model sets are given their initial values). -/
def baseModel : SessionModel where
  currentScreen := ScreenState.mainMenuScreen
  selectedIndex := 0
  profileStatus := ""
  figmaToken := ""
  userID := ""
  teamID := ""
  userHandle := ""
  textInputValue := ""
  editingIndex := -1
  profiles := []
  activeProfile := none
  previewProfile := none
  wizardStep := WizardStep.wizardTeamID
  wizardTeamID := ""
  wizardProjects := []
  wizardSelectedProj := []
  wizardProfileName := ""
  wizardEditMode := false
  loadingState := LoadingState.notLoading
  loadingError := ""
  loadingProgress := ""
  listOffset := 0
  listCursor := 0
  showDeleteConfirm := false
  deleteProfileName := ""
  generatingReport := false
  reportingProfile := none
  activityReport := none
  reportError := ""
  reportContent := ""
  exportSuccess := ""
  exportError := ""
  spinnerFrame := 0
  spinnerChars := ["⬖", "⬗", "⬘", "⬙"]

/-- Profile records used by the concrete scenarios. -/
def pOld : Profile := ⟨"old", "t1", [], 100, true⟩

/-- Wizard state: edit mode on profile old, renaming it to new, at the
name entry of the save step. -/
def renameCommitModel : SessionModel :=
  { baseModel with
      currentScreen := ScreenState.profileWizardScreen,
      wizardStep := WizardStep.wizardSaveName,
      editingIndex := 0,
      wizardEditMode := true,
      previewProfile := some pOld,
      profiles := [pOld],
      textInputValue := "new",
      wizardTeamID := "t1" }

/-- Store holding only the record being renamed, in an environment
where profile writes fail. -/
def renameCommitStore : Store := ⟨[pOld], true⟩

/-- Profile record used by the report scenarios. -/
def pReport : Profile := ⟨"p1", "t", [], 0, true⟩

/-- Session in the loading state of report generation. -/
def generatingModel : SessionModel :=
  { baseModel with
      currentScreen := ScreenState.reportGeneratingScreen,
      generatingReport := true,
      activeProfile := some pReport,
      reportingProfile := some pReport }

/-- Store holding the single report profile, with writes working. -/
def oneProfileStore : Store := ⟨[pReport], false⟩

/-- Empty report delivered by the in-flight generation. -/
def lateReport : ActivityReport := ⟨⟨0, 1⟩, "u", "h", [], 0, 0⟩

/-- Session on the manage profiles screen with the delete confirmation
pending for profile p1. -/
def pendingDeleteModel : SessionModel :=
  { baseModel with
      currentScreen := ScreenState.manageProfilesScreen,
      showDeleteConfirm := true,
      deleteProfileName := "p1",
      profiles := [pReport] }

/-- Wizard state at Project-Selection with nothing toggled. -/
def emptySelectionModel : SessionModel :=
  { baseModel with
      currentScreen := ScreenState.profileWizardScreen,
      wizardStep := WizardStep.wizardProjects,
      wizardProjects := [⟨"proj1", "P1"⟩],
      wizardSelectedProj := [] }

/-- Second profile record for the deletion scenario. -/
def pSecond : Profile := ⟨"p2", "t", [], 5, false⟩

/-- Store with the active profile p1 and one other record p2. -/
def twoProfileStore : Store := ⟨[pReport, pSecond], false⟩

/-- Manage profiles screen with the confirm dialog pending on the
active profile p1. -/
def deleteActiveModel : SessionModel :=
  { baseModel with
      currentScreen := ScreenState.manageProfilesScreen,
      showDeleteConfirm := true,
      deleteProfileName := "p1",
      activeProfile := some pReport,
      profiles := [pReport, pSecond] }

/-- generateReport as delivered into the event queue: reportErrMsg from
the missing-profile check, otherwise reportGeneratedMsg carrying the
built report and its rendered markdown; order is the Go map iteration
order used by the rendering. -/
def generateReportMsg (order : List String) (g : Gateway) (userID userHandle : String)
    (w : TimeWindow) (profile : Option Profile) : ReportMsg :=
  match generateReportCore g userID userHandle w profile with
  | .error e => .err e
  | .ok r => .generated r (formatReportMarkdown order r)

/-! ## Theorems -/

theorem daysFromCivil_day_shift (y m d k : Int) :
    daysFromCivil y m (d - k) = daysFromCivil y m d - k := by
  unfold daysFromCivil
  ring

theorem goDate_day_shift (y m d k h mi s : Int) :
    goDate y m (d - k) h mi s = goDate y m d h mi s - 86400 * k := by
  unfold goDate
  rw [daysFromCivil_day_shift]
  ring

theorem fdiv_mono_succ (a n : Int) (hn : 0 < n) : a.fdiv n ≤ (a + 1).fdiv n := by
  rw [Int.fdiv_eq_ediv _ hn.le, Int.fdiv_eq_ediv _ hn.le]
  exact Int.ediv_le_ediv hn (by omega)

theorem fdiv_succ_le (a n : Int) (hn : 0 < n) : (a + 1).fdiv n ≤ a.fdiv n + 1 := by
  rw [Int.fdiv_eq_ediv _ hn.le, Int.fdiv_eq_ediv _ hn.le]
  have h1 : (a + 1) / n ≤ (a + 1 * n) / n := Int.ediv_le_ediv hn (by omega)
  have h2 : (a + 1 * n) / n = a / n + 1 := Int.add_mul_ediv_right a 1 hn.ne'
  omega

theorem daysToYear_year_diff (y : Int) : 364 ≤ daysToYear y - daysToYear (y - 1) := by
  unfold daysToYear
  have e1 : y - 1 = (y - 2) + 1 := by ring
  have h4 := fdiv_mono_succ (y - 2) 4 (by norm_num)
  have h100 := fdiv_succ_le (y - 2) 100 (by norm_num)
  have h400 := fdiv_mono_succ (y - 2) 400 (by norm_num)
  rw [e1] at *
  have e2 : (y - 2) + 1 - 1 = y - 2 := by ring
  rw [e2]
  omega

theorem daysFromCivil_prev_month_lt (y m : Int) (h1 : 1 ≤ m) (h2 : m ≤ 12) :
    daysFromCivil y (m - 1) 1 < daysFromCivil y m 1 := by
  have hy := daysToYear_year_diff y
  have hy2 : 364 ≤ daysToYear y - daysToYear (y + -1) := by
    have e : y + -1 = y - 1 := by ring
    rw [e]; exact hy
  interval_cases m <;>
    simp only [daysFromCivil, daysBefore] <;> norm_num <;>
    cases h : isLeap y <;> cases h2 : isLeap (y + -1) <;> simp [h, h2] <;> omega

/-- C1: for every valid "now" decomposition, resolveTimeWindow returns a
window with Start at most End in all five time modes; the last-month
window is [first instant of the previous calendar month, first instant
of the current calendar month minus one second], so it ends strictly
before the first instant of the calendar month containing now; and for
now = 2024-03-15 (12:00:00) the window is exactly
[2024-02-01T00:00:00, 2024-02-29T23:59:59]. -/
theorem resolveTimeWindow_correct (now : CivilTime) (h : now.Wf) :
    (∀ mode, (resolveTimeWindow mode now).Start ≤ (resolveTimeWindow mode now).End) ∧
    (resolveTimeWindow .lastMonth now).Start = goDate now.y (now.m - 1) 1 0 0 0 ∧
    (resolveTimeWindow .lastMonth now).End = goDate now.y now.m 1 0 0 0 - 1 ∧
    (resolveTimeWindow .lastMonth now).End < goDate now.y now.m 1 0 0 0 ∧
    resolveTimeWindow .lastMonth ⟨2024, 3, 15, 12, 0, 0⟩ =
      ⟨goDate 2024 2 1 0 0 0, goDate 2024 2 29 23 59 59⟩ := by
  obtain ⟨hm1, hm2, hd, hh, hmi, hs⟩ := h
  refine ⟨?_, rfl, rfl, by simp [resolveTimeWindow], by decide⟩
  intro mode
  have habs : now.abs = goDate now.y now.m now.d now.h now.mi now.s := rfl
  cases mode
  case lastWeek =>
    simp only [resolveTimeWindow, habs, goDate_day_shift]
    omega
  case lastMonth =>
    have hlt := daysFromCivil_prev_month_lt now.y now.m hm1 hm2
    simp only [resolveTimeWindow, goDate]
    omega
  case thisMonthToDate =>
    have hshift : daysFromCivil now.y now.m 1 = daysFromCivil now.y now.m now.d - (now.d - 1) := by
      rw [show (1 : Int) = now.d - (now.d - 1) by ring, daysFromCivil_day_shift]
      ring
    simp only [resolveTimeWindow, habs, goDate]
    omega
  case last4Weeks =>
    simp only [resolveTimeWindow, habs, goDate_day_shift]
    omega
  case last30Days =>
    simp only [resolveTimeWindow, habs, goDate_day_shift]
    omega

theorem resolveTimeWindow_correct_witness :
    (CivilTime.Wf ⟨2024, 3, 15, 12, 0, 0⟩) ∧
    ((∀ mode, (resolveTimeWindow mode ⟨2024, 3, 15, 12, 0, 0⟩).Start ≤
        (resolveTimeWindow mode ⟨2024, 3, 15, 12, 0, 0⟩).End) ∧
      (resolveTimeWindow .lastMonth ⟨2024, 3, 15, 12, 0, 0⟩).Start = goDate 2024 (3 - 1) 1 0 0 0 ∧
      (resolveTimeWindow .lastMonth ⟨2024, 3, 15, 12, 0, 0⟩).End = goDate 2024 3 1 0 0 0 - 1 ∧
      (resolveTimeWindow .lastMonth ⟨2024, 3, 15, 12, 0, 0⟩).End < goDate 2024 3 1 0 0 0 ∧
      resolveTimeWindow .lastMonth ⟨2024, 3, 15, 12, 0, 0⟩ =
        ⟨goDate 2024 2 1 0 0 0, goDate 2024 2 29 23 59 59⟩) :=
  ⟨by decide, resolveTimeWindow_correct ⟨2024, 3, 15, 12, 0, 0⟩ (by decide)⟩

theorem processFile_flag (w : TimeWindow) (pn : String) (g : Gateway) (fe : FileEntry)
    (a : FileActivity) (h : processFile w pn g fe = some a) :
    (a.myChanges || a.createdInWindow) = true := by
  unfold processFile at h
  cases hm : g.fileMeta fe.key with
  | none => rw [hm] at h; exact absurd h (by simp)
  | some fd =>
    rw [hm] at h
    cases hv : g.fileVersions fe.key with
    | none => rw [hv] at h; exact absurd h (by simp)
    | some versions =>
      rw [hv] at h
      simp only at h
      split at h
      case isTrue hg =>
        cases h
        simpa using hg
      case isFalse => exact absurd h (by simp)

/-- C2: every file retained by generateReport has the created-in-window
or the modified-in-window flag set; TotalFiles is the number of retained
files; TotalChanges is the number of retained files whose
modified-in-window flag is set; hence TotalChanges is at most
TotalFiles. -/
theorem generateReport_totals (g : Gateway) (uid uh : String) (w : TimeWindow)
    (p : Profile) (r : ActivityReport)
    (h : generateReportCore g uid uh w (some p) = .ok r) :
    (∀ f ∈ r.files, f.createdInWindow = true ∨ f.myChanges = true) ∧
    r.totalFiles = r.files.length ∧
    r.totalChanges = r.files.countP (·.myChanges) ∧
    r.totalChanges ≤ r.totalFiles := by
  unfold generateReportCore at h
  cases h
  refine ⟨?_, rfl, rfl, List.countP_le_length _⟩
  intro f hf
  simp only [List.mem_flatMap] at hf
  obtain ⟨proj, _, hf⟩ := hf
  unfold projectActivities at hf
  cases hpf : g.projectFiles proj.id with
  | none => rw [hpf] at hf; exact absurd hf (by simp)
  | some fs =>
    rw [hpf] at hf
    obtain ⟨fe, _, hsome⟩ := List.mem_filterMap.mp hf
    have := processFile_flag w proj.name g fe f hsome
    rcases Bool.or_eq_true_iff.mp this with hmc | hcw
    · exact Or.inr hmc
    · exact Or.inl hcw

theorem generateReport_totals_witness :
    (generateReportCore
        ⟨fun _ => some [⟨"k1", "F1"⟩], fun _ => some ⟨"F1", 5⟩, fun _ => some [3]⟩
        "u" "h" ⟨0, 10⟩ (some ⟨"p", "t", [⟨"proj1", "P1"⟩], 0, true⟩) =
      .ok ⟨⟨0, 10⟩, "u", "h", [⟨"k1", "F1", "P1", 5, 3, true, true⟩], 1, 1⟩) ∧
    ((∀ f ∈ [(⟨"k1", "F1", "P1", 5, 3, true, true⟩ : FileActivity)],
        f.createdInWindow = true ∨ f.myChanges = true) ∧
      (1 : Nat) = [(⟨"k1", "F1", "P1", 5, 3, true, true⟩ : FileActivity)].length ∧
      (1 : Nat) = [(⟨"k1", "F1", "P1", 5, 3, true, true⟩ : FileActivity)].countP (·.myChanges) ∧
      (1 : Nat) ≤ 1) := by
  refine ⟨rfl, ?_⟩
  have := generateReport_totals
    ⟨fun _ => some [⟨"k1", "F1"⟩], fun _ => some ⟨"F1", 5⟩, fun _ => some [3]⟩
    "u" "h" ⟨0, 10⟩ ⟨"p", "t", [⟨"proj1", "P1"⟩], 0, true⟩
    ⟨⟨0, 10⟩, "u", "h", [⟨"k1", "F1", "P1", 5, 3, true, true⟩], 1, 1⟩ rfl
  exact this

/-- C3: with any window whose Start is a nonnegative instant (every
window the program resolves from a real clock is), createdInWindow is
true iff the creation instant, the earliest version timestamp, absent
when there are no versions, is strictly after Start and strictly before
End; modifiedInWindow (myChanges) is true iff lastModified is strictly
after Start and strictly before End; and the flags are independent:
there are inputs on which both hold; the flags of every activity
processFile retains are exactly these two tests on the fetched data. -/
theorem classification_iff (w : TimeWindow) (hw : 0 ≤ w.Start)
    (versions : List Int) (lm : Int) :
    (createdInWindowOf w versions = true ↔
      ∃ c, versions.getLast? = some c ∧ w.Start < c ∧ c < w.End) ∧
    (myChangesOf w lm = true ↔ w.Start < lm ∧ lm < w.End) ∧
    (∃ w' vs lm', 0 ≤ TimeWindow.Start w' ∧
      createdInWindowOf w' vs = true ∧ myChangesOf w' lm' = true) ∧
    (∀ (pn : String) (g : Gateway) (fe : FileEntry) (fd : FileMeta)
        (vs : List Int) (a : FileActivity),
      g.fileMeta fe.key = some fd → g.fileVersions fe.key = some vs →
      processFile w pn g fe = some a →
      a.createdInWindow = createdInWindowOf w vs ∧
        a.myChanges = myChangesOf w fd.lastModified) := by
  refine ⟨?_, by simp [myChangesOf], ⟨⟨1, 10⟩, [5], 7, by decide, by decide, by decide⟩, ?_⟩
  case refine_2 =>
    intro pn g fe fd vs a hm hv hp
    unfold processFile at hp
    rw [hm, hv] at hp
    simp only at hp
    split at hp
    case isTrue => cases hp; exact ⟨rfl, rfl⟩
    case isFalse => exact absurd hp (by simp)
  unfold createdInWindowOf createdAtOf
  cases hv : versions.getLast? with
  | none => simp
  | some c =>
    simp only [Option.getD_some, decide_eq_true_eq, Option.some.injEq]
    constructor
    · rintro ⟨_, h1, h2⟩
      exact ⟨c, rfl, h1, h2⟩
    · rintro ⟨c', hc', h1, h2⟩
      cases hc'
      exact ⟨by omega, h1, h2⟩

theorem classification_iff_witness :
    0 ≤ TimeWindow.Start ⟨1, 10⟩ ∧
    ((createdInWindowOf ⟨1, 10⟩ [5] = true ↔
        ∃ c, [(5 : Int)].getLast? = some c ∧ TimeWindow.Start ⟨1, 10⟩ < c ∧ c < TimeWindow.End ⟨1, 10⟩) ∧
      (myChangesOf ⟨1, 10⟩ 7 = true ↔
        TimeWindow.Start ⟨1, 10⟩ < 7 ∧ (7 : Int) < TimeWindow.End ⟨1, 10⟩) ∧
      (∃ w' vs lm', 0 ≤ TimeWindow.Start w' ∧
        createdInWindowOf w' vs = true ∧ myChangesOf w' lm' = true) ∧
      (∀ (pn : String) (g : Gateway) (fe : FileEntry) (fd : FileMeta)
          (vs : List Int) (a : FileActivity),
        g.fileMeta fe.key = some fd → g.fileVersions fe.key = some vs →
        processFile ⟨1, 10⟩ pn g fe = some a →
        a.createdInWindow = createdInWindowOf ⟨1, 10⟩ vs ∧
          a.myChanges = myChangesOf ⟨1, 10⟩ fd.lastModified)) :=
  ⟨by decide, classification_iff ⟨1, 10⟩ (by decide) [5] 7⟩

/-- C4 (code bug): with the Gateway entirely unreachable the engine
does not return an error: every per-project and per-file failure is
absorbed by continue, and the run produces a generated empty report
(zero files). The only pre-fetch short circuit in the code is the
missing-profile check; no authentication check precedes the per-file
fetches. -/
theorem generateReport_deadGateway :
    (generateReportCore deadGateway "u" "h" ⟨0, 100⟩
        (some ⟨"p", "team", [⟨"proj1", "P1"⟩], 0, true⟩) =
      .ok ⟨⟨0, 100⟩, "u", "h", [], 0, 0⟩) ∧
    (generateReportCore deadGateway "u" "h" ⟨0, 100⟩ none =
      .error "No profile selected. Please select a profile or create one in Manage Profiles.") :=
  ⟨rfl, rfl⟩

/-- Refutation of the insertion-order and idempotence reading of the
formatting claim: a permutation of the grouped keys other than first
occurrence order is a possible Go map iteration order and yields
different bytes for the same report. -/
theorem formatReportMarkdown_order_cex :
    (List.Perm ["Beta", "Alpha"] (distinctProjects twoProjectReport.files)) ∧
    formatReportMarkdown ["Beta", "Alpha"] twoProjectReport ≠
      formatReportMarkdown (distinctProjects twoProjectReport.files) twoProjectReport := by
  constructor
  · have : distinctProjects twoProjectReport.files = ["Alpha", "Beta"] := by decide
    rw [this]
    exact List.Perm.swap "Alpha" "Beta" []
  · decide

/-- C6 (amended): formatReportMarkdown renders one section per distinct
project name in the Go map iteration order, an arbitrary permutation of
the distinct names, so the output is order independent exactly in the
degenerate cases: an empty file list renders the explicit no-activity
sentence, and a report with at most one distinct project name formats
identically under every iteration order; each file is annotated Created
iff its createdInWindow flag is set, else Modified. -/
theorem formatReportMarkdown_amended (r : ActivityReport) (order : List String)
    (h : List.Perm order (distinctProjects r.files)) :
    (r.files = [] → formatReportMarkdown order r =
      reportHeader r ++ "No file activity found in the selected time period.\n") ∧
    ((distinctProjects r.files).length ≤ 1 →
      formatReportMarkdown order r = formatReportMarkdown (distinctProjects r.files) r) ∧
    (∀ f : FileActivity, statusOf f = "Created" ↔ f.createdInWindow = true) := by
  refine ⟨?_, ?_, ?_⟩
  · intro hfiles
    simp [formatReportMarkdown, hfiles]
  · intro hlen
    have horder : order = distinctProjects r.files := by
      match hd : distinctProjects r.files with
      | [] => rw [hd] at h; exact List.perm_nil.mp h
      | [a] => rw [hd] at h; exact List.perm_singleton.mp h
      | a :: b :: t => rw [hd] at hlen; simp at hlen
    rw [horder]
  · intro f
    cases hf : f.createdInWindow <;> simp [statusOf, hf]

theorem formatReportMarkdown_amended_witness :
    (List.Perm ["Alpha", "Beta"] (distinctProjects twoProjectReport.files)) ∧
    ((twoProjectReport.files = [] → formatReportMarkdown ["Alpha", "Beta"] twoProjectReport =
        reportHeader twoProjectReport ++ "No file activity found in the selected time period.\n") ∧
      ((distinctProjects twoProjectReport.files).length ≤ 1 →
        formatReportMarkdown ["Alpha", "Beta"] twoProjectReport =
          formatReportMarkdown (distinctProjects twoProjectReport.files) twoProjectReport) ∧
      (∀ f : FileActivity, statusOf f = "Created" ↔ f.createdInWindow = true)) := by
  have hp : List.Perm ["Alpha", "Beta"] (distinctProjects twoProjectReport.files) := by
    have : distinctProjects twoProjectReport.files = ["Alpha", "Beta"] := by decide
    rw [this]
  exact ⟨hp, formatReportMarkdown_amended twoProjectReport ["Alpha", "Beta"] hp⟩

/-- C5 (code bug): committing the wizard in edit mode under a changed
name deletes the old record BEFORE writing the new one; when the write
then fails, the store retains neither record: the rename destroyed the
only surviving copy. The claim (and the spec) requires write before
delete. -/
theorem wizard_rename_delete_before_write :
    ((update renameCommitModel renameCommitStore 0 (.key "enter")).2.1.profiles = []) ∧
    ((update renameCommitModel renameCommitStore 0 (.key "enter")).1.loadingError =
      "Failed to save profile: write error") ∧
    (renameCommitStore.profiles.any (·.name == "old") = true) := by
  decide

/-- Refutation of the late-result-is-ignored claim: esc during the
loading state returns to the main menu, but the later delivery of the
report-generated result moves the session to the report view screen
instead of leaving it on the main menu. -/
theorem escape_then_result_cex :
    ((update generatingModel oneProfileStore 0 (.key "esc")).1.currentScreen =
      ScreenState.mainMenuScreen) ∧
    ((update (update generatingModel oneProfileStore 0 (.key "esc")).1
        oneProfileStore 0 (.reportGenerated lateReport "body")).1.currentScreen =
      ScreenState.reportViewScreen) ∧
    ScreenState.reportViewScreen ≠ ScreenState.mainMenuScreen := by
  decide

/-- C7 (amended): the reportGeneratedMsg handler is unconditional: even
when the session has already left the loading state (the
still-generating flag is clear, as after esc), a late delivery moves
the session to the report view screen; only tickMsg consults the
still-generating flag and is ignored after esc. -/
theorem report_result_not_ignored (m : SessionModel) (s : Store) (now : Int)
    (r : ActivityReport) (c : String) (h : m.generatingReport = false) :
    ((update m s now (.reportGenerated r c)).1.currentScreen =
      ScreenState.reportViewScreen) ∧
    ((update m s now (.reportGenerated r c)).1.generatingReport = false) ∧
    (update m s now Msg.tickM = (m, s, none)) := by
  unfold update handleReportGenerated handleTick
  cases m.activeProfile <;> simp [h]

theorem report_result_not_ignored_witness :
    ((update generatingModel oneProfileStore 0 (.key "esc")).1.generatingReport = false) ∧
    (((update (update generatingModel oneProfileStore 0 (.key "esc")).1 oneProfileStore 0
        (.reportGenerated lateReport "body")).1.currentScreen = ScreenState.reportViewScreen) ∧
      ((update (update generatingModel oneProfileStore 0 (.key "esc")).1 oneProfileStore 0
        (.reportGenerated lateReport "body")).1.generatingReport = false) ∧
      (update (update generatingModel oneProfileStore 0 (.key "esc")).1 oneProfileStore 0
        Msg.tickM = ((update generatingModel oneProfileStore 0 (.key "esc")).1,
          oneProfileStore, none))) :=
  ⟨by decide,
    report_result_not_ignored (update generatingModel oneProfileStore 0 (.key "esc")).1
      oneProfileStore 0 lateReport "body" (by decide)⟩

/-- Refutation of the any-key-aborts claim: with the delete
confirmation pending, a key other than y/Y/n/N/esc leaves the dialog
pending (flag still set, state and Store unchanged) instead of
aborting back to the un-confirmed list. -/
theorem confirm_dialog_other_key_cex :
    ((update pendingDeleteModel oneProfileStore 0 (.key "x")).1.showDeleteConfirm = true) ∧
    ((update pendingDeleteModel oneProfileStore 0 (.key "x")).1 = pendingDeleteModel) ∧
    ((update pendingDeleteModel oneProfileStore 0 (.key "x")).2.1 = oneProfileStore) := by
  decide

theorem storeSetDefault_names (name : String) (s : Store) :
    (storeSetDefaultProfile name s).profiles.map (·.name) = s.profiles.map (·.name) := by
  unfold storeSetDefaultProfile
  split_ifs
  · rfl
  · simp only [List.map_map]
    rfl

/-- C8 (amended): profile deletion goes through the two-state confirm
dialog: while no confirmation is pending no key removes a record (only
the default flags can change); while the confirmation is pending, keys
other than y/Y never touch the Store, n/N/esc abort clearing the
pending flag and target name, and every other key leaves the dialog
pending and the whole state unchanged (it does not abort). -/
theorem delete_confirm_amended (m : SessionModel) (s : Store) (k : String)
    (hscreen : m.currentScreen = ScreenState.manageProfilesScreen) :
    (m.showDeleteConfirm = false →
      (update m s 0 (.key k)).2.1.profiles.map (·.name) = s.profiles.map (·.name)) ∧
    (m.showDeleteConfirm = true → k ≠ "y" → k ≠ "Y" →
      (update m s 0 (.key k)).2.1 = s) ∧
    (m.showDeleteConfirm = true → (k = "n" ∨ k = "N" ∨ k = "esc") →
      update m s 0 (.key k) =
        ({ m with showDeleteConfirm := false, deleteProfileName := "" }, s, none)) ∧
    (m.showDeleteConfirm = true → k ≠ "y" → k ≠ "Y" → k ≠ "n" → k ≠ "N" → k ≠ "esc" →
      update m s 0 (.key k) = (m, s, none)) := by
  have hroute : update m s 0 (.key k) = handleManageProfilesKey m s k := by
    unfold update
    rw [hscreen]
    simp
  rw [hroute]
  refine ⟨?_, ?_, ?_, ?_⟩
  · intro hpend
    unfold handleManageProfilesKey
    rw [hpend]
    simp only [Bool.false_eq_true, if_false]
    split <;> first
      | rfl
      | (split_ifs <;> simp [storeSetDefault_names])
  · intro hpend hy hY
    unfold handleManageProfilesKey handleDeleteConfirmKey
    rw [hpend]
    simp only [if_true]
    split <;> simp_all
  · intro hpend hk
    unfold handleManageProfilesKey handleDeleteConfirmKey
    rw [hpend]
    simp only [if_true]
    rcases hk with hk | hk | hk <;> subst hk <;> rfl
  · intro hpend hy hY hn hN hesc
    unfold handleManageProfilesKey handleDeleteConfirmKey
    rw [hpend]
    simp only [if_true]

theorem delete_confirm_amended_witness :
    (pendingDeleteModel.currentScreen = ScreenState.manageProfilesScreen) ∧
    ((pendingDeleteModel.showDeleteConfirm = false →
        (update pendingDeleteModel oneProfileStore 0 (.key "x")).2.1.profiles.map (·.name) =
          oneProfileStore.profiles.map (·.name)) ∧
      (pendingDeleteModel.showDeleteConfirm = true → "x" ≠ "y" → "x" ≠ "Y" →
        (update pendingDeleteModel oneProfileStore 0 (.key "x")).2.1 = oneProfileStore) ∧
      (pendingDeleteModel.showDeleteConfirm = true → ("x" = "n" ∨ "x" = "N" ∨ "x" = "esc") →
        update pendingDeleteModel oneProfileStore 0 (.key "x") =
          ({ pendingDeleteModel with showDeleteConfirm := false, deleteProfileName := "" },
            oneProfileStore, none)) ∧
      (pendingDeleteModel.showDeleteConfirm = true → "x" ≠ "y" → "x" ≠ "Y" → "x" ≠ "n" →
        "x" ≠ "N" → "x" ≠ "esc" →
        update pendingDeleteModel oneProfileStore 0 (.key "x") =
          (pendingDeleteModel, oneProfileStore, none))) :=
  ⟨rfl, delete_confirm_amended pendingDeleteModel oneProfileStore "x" rfl⟩

/-- C9: at Project-Selection with zero toggled projects, enter keeps
the session on the wizard projects step, sets the inline error (whose
text contains the words select at least one project) and dispatches no
command. -/
theorem project_selection_guard (m : SessionModel) (s : Store) (now : Int)
    (hscreen : m.currentScreen = ScreenState.profileWizardScreen)
    (hstep : m.wizardStep = WizardStep.wizardProjects)
    (hsel : m.wizardSelectedProj = []) :
    update m s now (.key "enter") =
      ({ m with loadingError := "Please select at least one project" }, s, none) ∧
    ({ m with loadingError := "Please select at least one project" } : SessionModel).wizardStep =
      WizardStep.wizardProjects ∧
    ({ m with loadingError := "Please select at least one project" } : SessionModel).currentScreen =
      ScreenState.profileWizardScreen ∧
    (∃ pre post : String,
      "Please select at least one project" = pre ++ "select at least one project" ++ post) := by
  have hroute : update m s now (.key "enter") = handleWizardKey m s now "enter" := by
    unfold update
    rw [hscreen]
    simp
  refine ⟨?_, by simp [hstep], by simp [hscreen], ⟨"Please ", "", by decide⟩⟩
  rw [hroute]
  unfold handleWizardKey
  rw [hstep, hsel]
  simp

theorem project_selection_guard_witness :
    (emptySelectionModel.currentScreen = ScreenState.profileWizardScreen ∧
      emptySelectionModel.wizardStep = WizardStep.wizardProjects ∧
      emptySelectionModel.wizardSelectedProj = []) ∧
    (update emptySelectionModel oneProfileStore 7 (.key "enter") =
        ({ emptySelectionModel with loadingError := "Please select at least one project" },
          oneProfileStore, none) ∧
      ({ emptySelectionModel with
          loadingError := "Please select at least one project" } : SessionModel).wizardStep =
        WizardStep.wizardProjects ∧
      ({ emptySelectionModel with
          loadingError := "Please select at least one project" } : SessionModel).currentScreen =
        ScreenState.profileWizardScreen ∧
      (∃ pre post : String,
        "Please select at least one project" = pre ++ "select at least one project" ++ post)) :=
  ⟨⟨rfl, rfl, rfl⟩, project_selection_guard emptySelectionModel oneProfileStore 7 rfl rfl rfl⟩

/-- C10: confirming deletion of the active profile with other records
remaining makes the Store flag the first remaining record (in loaded
list order) as the default, makes it the active profile and puts its
name into the profile status indicator; the confirm dialog closes. -/
theorem delete_active_promotes_first (m : SessionModel) (s : Store) (k : String)
    (pa p0 : Profile) (rest : List Profile)
    (hscreen : m.currentScreen = ScreenState.manageProfilesScreen)
    (hpending : m.showDeleteConfirm = true)
    (hk : k = "y" ∨ k = "Y")
    (hactive : m.activeProfile = some pa)
    (hname : pa.name = m.deleteProfileName)
    (hsave : s.saveFails = false)
    (hexists : s.profiles.any (·.name == m.deleteProfileName) = true)
    (hrem : s.profiles.filter (fun p => p.name ≠ m.deleteProfileName) = p0 :: rest) :
    ((update m s 0 (.key k)).1.activeProfile = some { p0 with isDefault := true }) ∧
    ((update m s 0 (.key k)).1.profileStatus = "⬥ Profile: " ++ p0.name) ∧
    ((update m s 0 (.key k)).2.1.profiles =
      (p0 :: rest).map (fun p => { p with isDefault := p.name == p0.name })) ∧
    ((update m s 0 (.key k)).1.showDeleteConfirm = false) := by
  have hroute : update m s 0 (.key k) = handleDeleteConfirmKey m s k := by
    unfold update handleManageProfilesKey
    rw [hscreen, hpending]
    simp
  rw [hroute]
  have hbeq : (pa.name == m.deleteProfileName) = true := by
    rw [hname]
    exact beq_self_eq_true _
  rcases hk with hk | hk <;> subst hk <;>
  · unfold handleDeleteConfirmKey
    simp only [storeDeleteProfile, storeSetDefaultProfile, hexists, hrem, hactive, hbeq,
      hsave, if_true, Bool.false_eq_true, if_false, List.find?, beq_self_eq_true]
    simp [List.map_cons]
    split_ifs <;> simp

theorem delete_active_promotes_first_witness :
    (deleteActiveModel.currentScreen = ScreenState.manageProfilesScreen ∧
      deleteActiveModel.showDeleteConfirm = true ∧
      ("y" = "y" ∨ "y" = "Y") ∧
      deleteActiveModel.activeProfile = some pReport ∧
      pReport.name = deleteActiveModel.deleteProfileName ∧
      twoProfileStore.saveFails = false ∧
      twoProfileStore.profiles.any (·.name == deleteActiveModel.deleteProfileName) = true ∧
      twoProfileStore.profiles.filter
        (fun p => p.name ≠ deleteActiveModel.deleteProfileName) = pSecond :: []) ∧
    (((update deleteActiveModel twoProfileStore 0 (.key "y")).1.activeProfile =
        some { pSecond with isDefault := true }) ∧
      ((update deleteActiveModel twoProfileStore 0 (.key "y")).1.profileStatus =
        "⬥ Profile: " ++ pSecond.name) ∧
      ((update deleteActiveModel twoProfileStore 0 (.key "y")).2.1.profiles =
        (pSecond :: []).map (fun p => { p with isDefault := p.name == pSecond.name })) ∧
      ((update deleteActiveModel twoProfileStore 0 (.key "y")).1.showDeleteConfirm = false)) :=
  ⟨⟨rfl, rfl, Or.inl rfl, rfl, rfl, rfl, by decide, by decide⟩,
    delete_active_promotes_first deleteActiveModel twoProfileStore "y" pReport pSecond []
      rfl rfl (Or.inl rfl) rfl rfl rfl (by decide) (by decide)⟩

end FigmaBeacon
